import Mathlib

/-!
Verification of the pincode-checker fulfillment logic.

The repository contains two near-identical serverless handlers:
`netlify/functions/checkPincode.js` (CORS-aware, axios-based) and an unnamed
module variant (node-fetch based, no CORS preflight handling).  Both share the
same core: a linear nearest-warehouse scan (`findNearestLocation`), an
inventory flattening step (`inventoryLevels`), and a two-tier stock selection
(nearest-with-stock, else any-with-stock, else out-of-stock).

The external distance function (geolib `getDistance`, which returns a
non-negative whole number of meters) is modelled as an explicit parameter
`dist : α → α → Nat`; all nearest-warehouse theorems hold for every such
distance function.  Warehouse registries are association lists, whose list
order models JavaScript `Object.entries` iteration order.
-/

/-- A latitude/longitude pair.  The JavaScript code stores these as floating
point numbers; we model them as rationals, which is adequate because the code
never computes on them directly — only the external distance function does. -/
structure Coordinates where
  latitude : Rat
  longitude : Rat
deriving DecidableEq, Repr

/-- Loop body of `findNearestLocation`: the JavaScript `forEach` callback.
The accumulator `none` models the initial state
`nearestLocation = null, minDistance = Infinity` (any actual distance is below
`Infinity`, so the first entry always replaces `none`).  The update condition
is the strict comparison `distance < minDistance` from the source. -/
def nearestStep {α : Type} (dist : α → α → Nat) (userCoordinates : α)
    (acc : Option ((String × α) × Nat)) (entry : String × α) :
    Option ((String × α) × Nat) :=
  let distance := dist userCoordinates entry.2
  match acc with
  | none => some (entry, distance)
  | some (_, minDistance) =>
      if distance < minDistance then some (entry, distance) else acc

/-- `findNearestLocation(userCoordinates, warehouseCoordinates)`: linear scan
over the registry entries tracking the minimum distance, returning
`{ pincode, coords }` of the nearest warehouse, or `null` for an empty
registry. -/
def findNearestLocation {α : Type} (dist : α → α → Nat) (userCoordinates : α)
    (warehouseCoordinates : List (String × α)) : Option (String × α) :=
  (warehouseCoordinates.foldl (nearestStep dist userCoordinates) none).map
    Prod.fst

/-- Invariant of the scan loop: starting from a tracked best entry `b` at its
own distance, the fold yields a tracked best entry that is `b` or comes from
the remaining list, whose distance is a lower bound of the starting distance
and of every remaining entry distance. -/
theorem nearest_foldl_inv {α : Type} (dist : α → α → Nat) (u : α) :
    ∀ (l : List (String × α)) (b : String × α),
      ∃ b', l.foldl (nearestStep dist u) (some (b, dist u b.2)) =
          some (b', dist u b'.2) ∧
        (b' = b ∨ b' ∈ l) ∧ dist u b'.2 ≤ dist u b.2 ∧
        ∀ e ∈ l, dist u b'.2 ≤ dist u e.2 := by
  intro l
  induction l with
  | nil => exact fun b => ⟨b, rfl, Or.inl rfl, Nat.le_refl _, by simp⟩
  | cons e rest ih =>
    intro b
    by_cases h : dist u e.2 < dist u b.2
    · obtain ⟨b', hfold, hmem, hle, hall⟩ := ih e
      refine ⟨b', ?_, ?_, ?_, ?_⟩
      · simpa [List.foldl_cons, nearestStep, h] using hfold
      · rcases hmem with hm | hm
        · exact Or.inr (by simp [hm])
        · exact Or.inr (List.mem_cons_of_mem _ hm)
      · exact Nat.le_trans hle (Nat.le_of_lt h)
      · intro x hx
        rcases List.mem_cons.mp hx with hx | hx
        · exact hx ▸ hle
        · exact hall x hx
    · obtain ⟨b', hfold, hmem, hle, hall⟩ := ih b
      refine ⟨b', ?_, ?_, hle, ?_⟩
      · simpa [List.foldl_cons, nearestStep, h] using hfold
      · rcases hmem with hm | hm
        · exact Or.inl hm
        · exact Or.inr (List.mem_cons_of_mem _ hm)
      · intro x hx
        rcases List.mem_cons.mp hx with hx | hx
        · exact hx ▸ Nat.le_trans hle (Nat.le_of_not_lt h)
        · exact hall x hx

/-- If no remaining entry is strictly nearer than the tracked minimum, the
scan keeps the tracked best entry unchanged (strict `<` ignores ties). -/
theorem nearest_foldl_frozen {α : Type} (dist : α → α → Nat) (u : α) :
    ∀ (l : List (String × α)) (b : String × α) (m : Nat),
      (∀ e ∈ l, ¬ dist u e.2 < m) →
      l.foldl (nearestStep dist u) (some (b, m)) = some (b, m) := by
  intro l
  induction l with
  | nil => exact fun b m _ => rfl
  | cons e rest ih =>
    intro b m h
    have he : ¬ dist u e.2 < m := h e (by simp)
    have := ih b m fun x hx => h x (List.mem_cons_of_mem _ hx)
    simpa [List.foldl_cons, nearestStep, he] using this

/-- On a non-empty registry the scan returns some entry of the registry whose
distance is minimal.  Shared helper behind the claim theorems. -/
theorem findNearestLocation_spec {α : Type} (dist : α → α → Nat) (u : α)
    (e : String × α) (rest : List (String × α)) :
    ∃ r, findNearestLocation dist u (e :: rest) = some r ∧
      r ∈ e :: rest ∧ ∀ x ∈ e :: rest, dist u r.2 ≤ dist u x.2 := by
  obtain ⟨b', hfold, hmem, hle, hall⟩ := nearest_foldl_inv dist u rest e
  refine ⟨b', ?_, ?_, ?_⟩
  · simp [findNearestLocation, List.foldl_cons, nearestStep, hfold]
  · rcases hmem with hm | hm
    · exact hm ▸ List.mem_cons_self _ _
    · exact List.mem_cons_of_mem _ hm
  · intro x hx
    rcases List.mem_cons.mp hx with hx | hx
    · exact hx ▸ hle
    · exact hall x hx

/-- C1: for every non-empty warehouse registry and every user coordinate pair
(and every distance function), `findNearestLocation` returns a registry entry
whose distance to the user coordinates is less than or equal to the distance
of every other registry entry. -/
theorem findNearestLocation_minimal {α : Type} (dist : α → α → Nat) (u : α)
    (registry : List (String × α)) (h : registry ≠ []) :
    ∃ r, findNearestLocation dist u registry = some r ∧
      r ∈ registry ∧ ∀ x ∈ registry, dist u r.2 ≤ dist u x.2 := by
  cases registry with
  | nil => exact absurd rfl h
  | cons e rest => exact findNearestLocation_spec dist u e rest

/-- Witness for C1 at a concrete registry and distance function. -/
theorem findNearestLocation_minimal_witness :
    ∃ r, findNearestLocation (fun u w : Int => (u - w).natAbs) (0 : Int)
        [("A", (5 : Int)), ("B", 3), ("C", 7)] = some r ∧
      r ∈ [("A", (5 : Int)), ("B", 3), ("C", 7)] ∧
      ∀ x ∈ [("A", (5 : Int)), ("B", 3), ("C", 7)],
        (0 - r.2).natAbs ≤ (0 - x.2).natAbs :=
  findNearestLocation_minimal (fun u w : Int => (u - w).natAbs) 0
    [("A", 5), ("B", 3), ("C", 7)] (by decide)

/-- C2: when two or more warehouses attain the minimum distance, the one
appearing first in registry iteration order wins.  Stated positionally: if
every entry before `e` is strictly farther and every entry after `e` is at
least as far (ties included), the scan returns `e`.  Determinism is immediate
since `findNearestLocation` is a pure function of its arguments. -/
theorem findNearestLocation_tiebreak {α : Type} (dist : α → α → Nat) (u : α)
    (pre : List (String × α)) (e : String × α) (suf : List (String × α))
    (hpre : ∀ x ∈ pre, dist u e.2 < dist u x.2)
    (hsuf : ∀ x ∈ suf, dist u e.2 ≤ dist u x.2) :
    findNearestLocation dist u (pre ++ e :: suf) = some e := by
  have hfrozen : suf.foldl (nearestStep dist u) (some (e, dist u e.2)) =
      some (e, dist u e.2) :=
    nearest_foldl_frozen dist u suf e (dist u e.2)
      fun x hx => Nat.not_lt.mpr (hsuf x hx)
  cases pre with
  | nil =>
    simp [findNearestLocation, List.foldl_cons, nearestStep, hfrozen]
  | cons p pre' =>
    obtain ⟨b', hfold, hmem, _, _⟩ := nearest_foldl_inv dist u pre' p
    have hb' : dist u e.2 < dist u b'.2 := by
      rcases hmem with hm | hm
      · exact hm ▸ hpre p (by simp)
      · exact hpre b' (List.mem_cons_of_mem _ hm)
    simp [findNearestLocation, List.foldl_cons, List.foldl_append,
      nearestStep, hfold, hb', hfrozen]

/-- Witness for C2: warehouses B and C are equidistant from the user, A is
farther; the scan returns B, the first of the equidistant pair. -/
theorem findNearestLocation_tiebreak_witness :
    findNearestLocation (fun u w : Int => (u - w).natAbs) (0 : Int)
      ([("A", (5 : Int))] ++ ("B", (3 : Int)) :: [("C", (3 : Int))]) =
      some ("B", 3) :=
  findNearestLocation_tiebreak (fun u w : Int => (u - w).natAbs) 0
    [("A", 5)] ("B", 3) [("C", 3)] (by decide) (by decide)

/-- C9: `findNearestLocation` returns `none` (the `null` of the source) if
and only if the registry is empty; on every non-empty registry it returns
some warehouse. -/
theorem findNearestLocation_eq_none_iff {α : Type} (dist : α → α → Nat)
    (u : α) (registry : List (String × α)) :
    findNearestLocation dist u registry = none ↔ registry = [] := by
  cases registry with
  | nil => simp [findNearestLocation]
  | cons e rest =>
    obtain ⟨r, hr, _, _⟩ := findNearestLocation_spec dist u e rest
    simp [hr]

/-- One inventory-level edge node of the commerce (Shopify) response: a
location display name and the `quantities(names: "available")` array, of
which the code reads only the first entry (`quantities[0]?.quantity`). -/
structure InventoryLevelNode where
  locationName : String
  quantities : List Int
deriving DecidableEq, Repr

/-- One variant edge node: its inventory-level edges. -/
structure Variant where
  inventoryLevels : List InventoryLevelNode
deriving DecidableEq, Repr

/-- The raw product of the commerce response: its variant edges. -/
structure RawProduct where
  variants : List Variant
deriving DecidableEq, Repr

/-- A flattened inventory record `{ locationName, quantity }`. -/
structure InventoryRecord where
  locationName : String
  quantity : Int
deriving DecidableEq, Repr

/-- The flattening step of both handlers:
`product.variants.edges.flatMap(variant => variant.node.inventoryItem.inventoryLevels.edges.map(level => ({ locationName: ..., quantity: level.node.quantities[0]?.quantity || 0 })))`.
`quantities[0]?.quantity || 0` yields the first quantity when present and
non-zero, and `0` otherwise; on integers that is `head?.getD 0`. -/
def inventoryLevels (product : RawProduct) : List InventoryRecord :=
  product.variants.flatMap fun variant =>
    variant.inventoryLevels.map fun level =>
      { locationName := level.locationName
        quantity := level.quantities.head?.getD 0 }

/-- The terminal stock-selection outcome shared by both handlers. -/
inductive FulfillmentOutcome where
  | Fulfilled (locationName : String) (quantity : Int)
  | Fallback (locationName : String) (quantity : Int)
  | OutOfStock
deriving DecidableEq, Repr

/-- The two-tier selection of both handlers, factored out of their bodies:
`availableInventory` is the first record whose location name maps through
`warehouseLocationMap` to the nearest pincode and has positive quantity
(`warehouseLocationMap[level.locationName] === nearestLocation.pincode &&
level.quantity > 0`); failing that, `fallbackInventory` is the first record
with positive quantity; failing that, out of stock. -/
def selectInventory (locationMap : List (String × String))
    (nearestPincode : String) (levels : List InventoryRecord) :
    FulfillmentOutcome :=
  match levels.find? fun level =>
      (locationMap.lookup level.locationName == some nearestPincode) &&
        decide (0 < level.quantity) with
  | some availableInventory =>
      .Fulfilled availableInventory.locationName availableInventory.quantity
  | none =>
      match levels.find? fun level => decide (0 < level.quantity) with
      | some fallbackInventory =>
          .Fallback fallbackInventory.locationName fallbackInventory.quantity
      | none => .OutOfStock

/-- Shared helper: with no positive-quantity record at all, both `find?`
tiers fail and the selection is out of stock. -/
theorem selectInventory_outOfStock (lm : List (String × String)) (np : String)
    (levels : List InventoryRecord)
    (h : ∀ r ∈ levels, ¬ 0 < r.quantity) :
    selectInventory lm np levels = .OutOfStock := by
  have h1 : (levels.find? fun level =>
      (lm.lookup level.locationName == some np) &&
        decide (0 < level.quantity)) = none := by
    rw [List.find?_eq_none]
    intro x hx hp
    simp only [Bool.and_eq_true, beq_iff_eq, decide_eq_true_eq] at hp
    exact h x hx hp.2
  have h2 : (levels.find? fun level => decide (0 < level.quantity)) = none := by
    rw [List.find?_eq_none]
    intro x hx hp
    simp only [decide_eq_true_eq] at hp
    exact h x hx hp
  simp [selectInventory, h1, h2]

/-- C3: if some record's location maps through the display-name registry to
the nearest pincode and has positive quantity, the selection is `Fulfilled`
with a record that itself maps to the nearest pincode and has positive
quantity — regardless of stock elsewhere. -/
theorem selectInventory_fulfilled (lm : List (String × String)) (np : String)
    (levels : List InventoryRecord) (r : InventoryRecord) (hr : r ∈ levels)
    (hmap : lm.lookup r.locationName = some np) (hq : 0 < r.quantity) :
    ∃ a : InventoryRecord,
      selectInventory lm np levels = .Fulfilled a.locationName a.quantity ∧
      lm.lookup a.locationName = some np ∧ 0 < a.quantity := by
  cases hfind : levels.find? fun level =>
      (lm.lookup level.locationName == some np) &&
        decide (0 < level.quantity) with
  | none =>
    rw [List.find?_eq_none] at hfind
    exact absurd (by simp [hmap, hq]) (hfind r hr)
  | some a =>
    have ha := List.find?_some hfind
    simp only [Bool.and_eq_true, beq_iff_eq, decide_eq_true_eq] at ha
    exact ⟨a, by simp [selectInventory, hfind], ha.1, ha.2⟩

/-- Witness for C3: Delhi is nearest and has stock; Ahmedabad also has
stock; the outcome is still `Fulfilled` at a Delhi-mapped record. -/
theorem selectInventory_fulfilled_witness :
    ∃ a : InventoryRecord, selectInventory
        [("Delhi Warehouse", "110042"), ("Ahmedabad Warehouse", "382213")]
        "110042"
        [⟨"Ahmedabad Warehouse", 4⟩, ⟨"Delhi Warehouse", 5⟩] =
        .Fulfilled a.locationName a.quantity ∧
      [("Delhi Warehouse", "110042"),
        ("Ahmedabad Warehouse", "382213")].lookup a.locationName =
        some "110042" ∧ 0 < a.quantity :=
  selectInventory_fulfilled _ _ _ ⟨"Delhi Warehouse", 5⟩ (by decide)
    (by decide) (by decide)

/-- C4: if every positive-quantity record is at a location that does not map
to the nearest pincode, yet some positive-quantity record exists, the
selection is `Fallback` at the first positive-quantity record, and is never
`Fulfilled`. -/
theorem selectInventory_fallback (lm : List (String × String)) (np : String)
    (levels : List InventoryRecord)
    (hnone : ∀ r ∈ levels, 0 < r.quantity →
      lm.lookup r.locationName ≠ some np)
    (r : InventoryRecord) (hr : r ∈ levels) (hq : 0 < r.quantity) :
    ∃ a : InventoryRecord,
      (levels.find? fun level => decide (0 < level.quantity)) = some a ∧
      selectInventory lm np levels = .Fallback a.locationName a.quantity ∧
      ∀ name qty, selectInventory lm np levels ≠ .Fulfilled name qty := by
  have h1 : (levels.find? fun level =>
      (lm.lookup level.locationName == some np) &&
        decide (0 < level.quantity)) = none := by
    rw [List.find?_eq_none]
    intro x hx hp
    simp only [Bool.and_eq_true, beq_iff_eq, decide_eq_true_eq] at hp
    exact hnone x hx hp.2 hp.1
  cases hfind : levels.find? fun level => decide (0 < level.quantity) with
  | none =>
    rw [List.find?_eq_none] at hfind
    exact absurd (by simp [hq]) (hfind r hr)
  | some a =>
    refine ⟨a, rfl, by simp [selectInventory, h1, hfind], ?_⟩
    intro name qty
    simp [selectInventory, h1, hfind]

/-- Witness for C4: only Ahmedabad has stock while Delhi is nearest; the
outcome is `Fallback` at the Ahmedabad record and not `Fulfilled`. -/
theorem selectInventory_fallback_witness :
    ∃ a : InventoryRecord, ([⟨"Delhi Warehouse", 0⟩,
        (⟨"Ahmedabad Warehouse", 4⟩ : InventoryRecord)].find? fun level =>
          decide (0 < level.quantity)) = some a ∧
      selectInventory
        [("Delhi Warehouse", "110042"), ("Ahmedabad Warehouse", "382213")]
        "110042" [⟨"Delhi Warehouse", 0⟩, ⟨"Ahmedabad Warehouse", 4⟩] =
        .Fallback a.locationName a.quantity ∧
      ∀ name qty, selectInventory
        [("Delhi Warehouse", "110042"), ("Ahmedabad Warehouse", "382213")]
        "110042" [⟨"Delhi Warehouse", 0⟩, ⟨"Ahmedabad Warehouse", 4⟩] ≠
        .Fulfilled name qty :=
  selectInventory_fallback _ _ _ (by decide) ⟨"Ahmedabad Warehouse", 4⟩
    (by decide) (by decide)

/-- C10: whenever the selection yields `Fulfilled` or `Fallback`, the
reported quantity is strictly positive — a zero-quantity record is never
selected by either tier. -/
theorem selectInventory_positive (lm : List (String × String)) (np : String)
    (levels : List InventoryRecord) (name : String) (qty : Int)
    (h : selectInventory lm np levels = .Fulfilled name qty ∨
      selectInventory lm np levels = .Fallback name qty) :
    0 < qty := by
  cases h1 : levels.find? fun level =>
      (lm.lookup level.locationName == some np) &&
        decide (0 < level.quantity) with
  | some a =>
    have ha := List.find?_some h1
    simp only [Bool.and_eq_true, beq_iff_eq, decide_eq_true_eq] at ha
    simp only [selectInventory, h1] at h
    rcases h with h | h
    · cases h
      exact ha.2
    · cases h
  | none =>
    cases h2 : levels.find? fun level => decide (0 < level.quantity) with
    | some b =>
      have hb := List.find?_some h2
      simp only [decide_eq_true_eq] at hb
      simp only [selectInventory, h1, h2] at h
      rcases h with h | h
      · cases h
      · cases h
        exact hb
    | none =>
      simp only [selectInventory, h1, h2] at h
      rcases h with h | h <;> cases h

/-- Witness for C10 at a concrete fulfilled selection. -/
theorem selectInventory_positive_witness :
    selectInventory [("A", "P")] "P" [⟨"A", 2⟩] = .Fulfilled "A" 2 ∧
      (0 : Int) < 2 :=
  ⟨by decide, selectInventory_positive [("A", "P")] "P" [⟨"A", 2⟩] "A" 2
    (Or.inl (by decide))⟩

/-- C6: the flattening produces exactly one record per inventory-location
entry per variant — the sum over variants of their location-entry counts —
and an entry whose quantities array is empty (upstream omitted the available
quantity) yields a record with quantity 0. -/
theorem inventoryLevels_spec (product : RawProduct) :
    (inventoryLevels product).length =
      (product.variants.map fun v => v.inventoryLevels.length).sum ∧
    ∀ v ∈ product.variants, ∀ l ∈ v.inventoryLevels, l.quantities = [] →
      (⟨l.locationName, 0⟩ : InventoryRecord) ∈ inventoryLevels product := by
  constructor
  · simp [inventoryLevels, Function.comp_def, List.length_map]
  · intro v hv l hl hql
    rw [inventoryLevels, List.mem_flatMap]
    refine ⟨v, hv, List.mem_map.mpr ⟨l, hl, ?_⟩⟩
    simp [hql]

/-- A concrete product response used by the C6 witness: two variants, three
inventory-location entries in total, one with an omitted quantity. -/
def sampleProduct : RawProduct :=
  ⟨[⟨[⟨"Delhi Warehouse", [5]⟩, ⟨"X", []⟩]⟩, ⟨[⟨"Ahmedabad Warehouse", [0]⟩]⟩]⟩

/-- Witness for C6 on `sampleProduct`: count matches, and the
omitted-quantity entry surfaces as a quantity-0 record. -/
theorem inventoryLevels_spec_witness :
    (inventoryLevels sampleProduct).length =
      (sampleProduct.variants.map fun v => v.inventoryLevels.length).sum ∧
    (⟨"X", 0⟩ : InventoryRecord) ∈ inventoryLevels sampleProduct :=
  ⟨(inventoryLevels_spec sampleProduct).1,
    (inventoryLevels_spec sampleProduct).2
      ⟨[⟨"Delhi Warehouse", [5]⟩, ⟨"X", []⟩]⟩ (by decide)
      ⟨"X", []⟩ (by decide) rfl⟩

/-- The incoming serverless event: the HTTP method and the
`queryStringParameters` object, `none` modelling a `null`/`undefined` object
and the two fields modelling the `pincode` and `productId` properties
(`none` = property absent). -/
structure Event where
  httpMethod : String
  queryStringParameters : Option (Option String × Option String)
deriving DecidableEq, Repr

/-- JavaScript truthiness test used by `if (!pincode || !productId)`: a
missing property and the empty string are falsy, every other string truthy. -/
def isFalsy : Option String → Bool
  | none => true
  | some s => s == ""

/-- The JSON shapes this code puts in response bodies: nothing (preflight),
an `error` field, a `message` field, or the
`warehouse`/`quantity`/`message` object of the unnamed variant. -/
inductive ResponseBody where
  | emptyBody
  | errorBody (error : String)
  | messageBody (message : String)
  | stockBody (warehouse : String) (quantity : Int) (message : String)
deriving DecidableEq, Repr

/-- A structured handler response: status code, headers, JSON body. -/
structure HttpResponse where
  statusCode : Nat
  headers : List (String × String)
  body : ResponseBody
deriving DecidableEq, Repr

/-- The permissive cross-origin header attached to every non-preflight
response of `checkPincode.js`. -/
def corsHeaders : List (String × String) :=
  [("Access-Control-Allow-Origin", "*")]

/-- The preflight (OPTIONS) response headers of `checkPincode.js`. -/
def preflightHeaders : List (String × String) :=
  [("Access-Control-Allow-Origin", "*"),
    ("Access-Control-Allow-Methods", "GET, POST, OPTIONS"),
    ("Access-Control-Allow-Headers", "Content-Type")]

/-- The fixed warehouse registry, in source-text order.  (JavaScript
`Object.entries` would iterate these integer-like keys in ascending numeric
order; no claim depends on which of the two orders is used, so the
source-text order is kept for readability.) -/
def warehouseCoordinates : List (String × Coordinates) :=
  [("382213", ⟨23.0225, 72.5714⟩),
    ("110042", ⟨28.7041, 77.1025⟩),
    ("562123", ⟨12.9716, 77.5946⟩),
    ("131028", ⟨28.9876, 77.1136⟩)]

/-- The display-name → warehouse-pincode registry, shared by both handlers. -/
def warehouseLocationMap : List (String × String) :=
  [("Ahmedabad Warehouse", "382213"),
    ("Delhi Warehouse", "110042"),
    ("Emiza Blr Warehouse", "562123"),
    ("Kundli Warehouse", "131028")]

/-- The `checkPincode.js` handler.  Effects of the two outbound calls are
passed in explicitly: `geoResult` is what `getCoordinatesFromPincode`
returns (it catches internally and returns `null` on any failure);
`shopifyResult` is `.error ()` when the axios call or the response-shape
access throws (caught by the surrounding try → 500), `.ok none` when the
response carries no product, and `.ok (some product)` otherwise.
`estimatedDeliveryDate` stands for the formatted today-plus-5-days string,
which depends on the wall clock. -/
def handler (dist : Coordinates → Coordinates → Nat)
    (estimatedDeliveryDate : String) (event : Event)
    (geoResult : Option Coordinates)
    (shopifyResult : Except Unit (Option RawProduct)) : HttpResponse :=
  if event.httpMethod == "OPTIONS" then
    { statusCode := 204, headers := preflightHeaders, body := .emptyBody }
  else
    let params := event.queryStringParameters.getD (none, none)
    if isFalsy params.1 || isFalsy params.2 then
      { statusCode := 400, headers := corsHeaders,
        body := .errorBody "Missing pincode or productId" }
    else
      match geoResult with
      | none =>
          { statusCode := 404, headers := corsHeaders,
            body := .errorBody "Invalid pincode. No coordinates found." }
      | some userCoordinates =>
          match shopifyResult with
          | .error _ =>
              { statusCode := 500, headers := corsHeaders,
                body := .errorBody "Server error" }
          | .ok none =>
              { statusCode := 404, headers := corsHeaders,
                body := .errorBody "Product not found in Shopify" }
          | .ok (some product) =>
              let levels := inventoryLevels product
              match findNearestLocation dist userCoordinates
                  warehouseCoordinates with
              | none =>
                  { statusCode := 404, headers := corsHeaders,
                    body := .errorBody
                      "No warehouse found near the provided pincode." }
              | some nearestLocation =>
                  match selectInventory warehouseLocationMap
                      nearestLocation.1 levels with
                  | .Fulfilled locationName _ =>
                      { statusCode := 200, headers := corsHeaders,
                        body := .messageBody
                          ("Estimate Delivery " ++ estimatedDeliveryDate ++
                            ",  <br> Dispatch from " ++ locationName ++ ".") }
                  | .Fallback locationName _ =>
                      { statusCode := 200, headers := corsHeaders,
                        body := .messageBody
                          ("Estimate Delivery " ++ estimatedDeliveryDate ++
                            ", <br> Dispatch from " ++ locationName ++ ".") }
                  | .OutOfStock =>
                      { statusCode := 200, headers := corsHeaders,
                        body := .errorBody
                          "Product is out of stock at all locations." }

/-- Outcome of the unnamed variant's fetch to the commerce backend:
the call (or JSON parsing) threw, or the response was non-2xx carrying an
optional `errors` payload, or it succeeded with an optional product. -/
inductive ShopifyFetch where
  | threw
  | notOk (errors : Option String)
  | okFetch (product : Option RawProduct)
deriving DecidableEq, Repr

/-- The unnamed module variant's handler.  It destructures
`event.queryStringParameters` without a `|| {}` guard and outside its
try/catch, so a missing parameter object makes the destructuring throw — an
uncaught exception, modelled as `Except.error ()`.  Its
`getCoordinatesFromPincode` rethrows, but inside the try, so a geocoding
failure (`geoResult = .error ()`) lands in the catch → 500. -/
def handler0 (dist : Coordinates → Coordinates → Nat) (event : Event)
    (geoResult : Except Unit Coordinates) (shopifyResult : ShopifyFetch) :
    Except Unit HttpResponse :=
  match event.queryStringParameters with
  | none => .error ()
  | some params =>
      if isFalsy params.1 || isFalsy params.2 then
        .ok { statusCode := 400, headers := [],
              body := .errorBody "Missing pincode or productId" }
      else
        match geoResult with
        | .error _ =>
            .ok { statusCode := 500, headers := [],
                  body := .errorBody "Server error" }
        | .ok userCoordinates =>
            match shopifyResult with
            | .threw =>
                .ok { statusCode := 500, headers := [],
                      body := .errorBody "Server error" }
            | .notOk errors =>
                .ok { statusCode := 500, headers := [],
                      body := .errorBody
                        (errors.getD "Error fetching product data") }
            | .okFetch none =>
                .ok { statusCode := 404, headers := [],
                      body := .errorBody "Product not found" }
            | .okFetch (some product) =>
                let levels := inventoryLevels product
                match findNearestLocation dist userCoordinates
                    warehouseCoordinates with
                | none =>
                    .ok { statusCode := 404, headers := [],
                          body := .errorBody
                            "No warehouse found near the provided pincode." }
                | some nearestLocation =>
                    match selectInventory warehouseLocationMap
                        nearestLocation.1 levels with
                    | .Fulfilled locationName quantity =>
                        .ok { statusCode := 200, headers := [],
                              body := .stockBody locationName quantity
                                ("Product is available at " ++
                                  locationName ++ ".") }
                    | .Fallback locationName quantity =>
                        .ok { statusCode := 200, headers := [],
                              body := .stockBody locationName quantity
                                ("Product is not available near your pincode but is available at " ++
                                  locationName ++ ".") }
                    | .OutOfStock =>
                        .ok { statusCode := 200, headers := [],
                              body := .errorBody
                                "Product is out of stock at all locations." }

/-- The fixed registry is non-empty, so the nearest-warehouse scan always
returns some entry, whatever the distance function and user position. -/
theorem findNearestLocation_warehouse_some
    (dist : Coordinates → Coordinates → Nat) (u : Coordinates) :
    ∃ r, findNearestLocation dist u warehouseCoordinates = some r := by
  obtain ⟨r, hr, -, -⟩ := findNearestLocation_spec dist u
    ("382213", ⟨23.0225, 72.5714⟩)
    [("110042", ⟨28.7041, 77.1025⟩),
      ("562123", ⟨12.9716, 77.5946⟩),
      ("131028", ⟨28.9876, 77.1136⟩)]
  exact ⟨r, hr⟩

/-- C5: with no positive-quantity record at all (empty inventory included)
the selection is `OutOfStock`, and both handlers surface it as an HTTP 200
response whose body is an `error` field (not a success `message`). -/
theorem outOfStock_response (lm : List (String × String)) (np : String)
    (product : RawProduct)
    (hstock : ∀ r ∈ inventoryLevels product, ¬ 0 < r.quantity)
    (dist : Coordinates → Coordinates → Nat) (est : String) (e : Event)
    (he : (e.httpMethod == "OPTIONS") = false)
    (qsp : Option String × Option String)
    (hq : e.queryStringParameters = some qsp)
    (h1 : isFalsy qsp.1 = false) (h2 : isFalsy qsp.2 = false)
    (coords : Coordinates) (dist0 : Coordinates → Coordinates → Nat)
    (coords0 : Coordinates) :
    selectInventory lm np (inventoryLevels product) = .OutOfStock ∧
    handler dist est e (some coords) (.ok (some product)) =
      { statusCode := 200, headers := corsHeaders,
        body := .errorBody "Product is out of stock at all locations." } ∧
    handler0 dist0 e (.ok coords0) (.okFetch (some product)) =
      .ok { statusCode := 200, headers := [],
            body := .errorBody "Product is out of stock at all locations." } := by
  refine ⟨selectInventory_outOfStock lm np _ hstock, ?_, ?_⟩
  · obtain ⟨r, hr⟩ := findNearestLocation_warehouse_some dist coords
    have hsel := selectInventory_outOfStock warehouseLocationMap r.1
      (inventoryLevels product) hstock
    simp [handler, he, hq, h1, h2, hr, hsel]
  · obtain ⟨r, hr⟩ := findNearestLocation_warehouse_some dist0 coords0
    have hsel := selectInventory_outOfStock warehouseLocationMap r.1
      (inventoryLevels product) hstock
    simp [handler0, hq, h1, h2, hr, hsel]

/-- A product whose only inventory record has quantity 0, for the C5
witness. -/
def outOfStockProduct : RawProduct := ⟨[⟨[⟨"Delhi Warehouse", [0]⟩]⟩]⟩

/-- Witness for C5 at concrete inputs. -/
theorem outOfStock_response_witness :
    selectInventory warehouseLocationMap "110042"
      (inventoryLevels outOfStockProduct) = .OutOfStock ∧
    handler (fun _ _ => 0) "Monday, Oct 6"
      ⟨"GET", some (some "110001", some "gid1")⟩ (some ⟨0, 0⟩)
      (.ok (some outOfStockProduct)) =
      { statusCode := 200, headers := corsHeaders,
        body := .errorBody "Product is out of stock at all locations." } ∧
    handler0 (fun _ _ => 0) ⟨"GET", some (some "110001", some "gid1")⟩
      (.ok ⟨0, 0⟩) (.okFetch (some outOfStockProduct)) =
      .ok { statusCode := 200, headers := [],
            body := .errorBody "Product is out of stock at all locations." } :=
  outOfStock_response warehouseLocationMap "110042" outOfStockProduct
    (by decide) (fun _ _ => 0) "Monday, Oct 6"
    ⟨"GET", some (some "110001", some "gid1")⟩ (by decide)
    (some "110001", some "gid1") rfl (by decide) (by decide)
    ⟨0, 0⟩ (fun _ _ => 0) ⟨0, 0⟩

/-- C7 counterexample: as universally stated over all requests the claim is
false.  A CORS preflight (OPTIONS) request with both parameters missing gets
a 204 from `checkPincode.js`, not a 400-class response; and an event whose
query-parameter object is absent makes the unnamed variant throw (its
destructuring has no `|| {}` guard) instead of returning 400. -/
theorem missingParams_counterexample :
    (handler (fun _ _ => 0) "" ⟨"OPTIONS", some (none, none)⟩ none
        (.error ())).statusCode = 204 ∧
    handler0 (fun _ _ => 0) ⟨"GET", none⟩ (.error ()) .threw = .error () :=
  ⟨rfl, rfl⟩

/-- C7 (amended): for every non-preflight request that carries a
query-parameter object, a missing or empty pincode or productId yields the
400 missing-parameter response from both handlers, regardless of the other
field and independently of the collaborator results (so no outbound call can
influence the answer). -/
theorem missingParams_response (dist : Coordinates → Coordinates → Nat)
    (est : String) (e : Event) (he : (e.httpMethod == "OPTIONS") = false)
    (qsp : Option String × Option String)
    (hq : e.queryStringParameters = some qsp)
    (hmiss : (isFalsy qsp.1 || isFalsy qsp.2) = true)
    (geo : Option Coordinates) (shop : Except Unit (Option RawProduct))
    (dist0 : Coordinates → Coordinates → Nat)
    (geo0 : Except Unit Coordinates) (shop0 : ShopifyFetch) :
    handler dist est e geo shop =
      { statusCode := 400, headers := corsHeaders,
        body := .errorBody "Missing pincode or productId" } ∧
    handler0 dist0 e geo0 shop0 =
      .ok { statusCode := 400, headers := [],
            body := .errorBody "Missing pincode or productId" } := by
  constructor
  · simp [handler, he, hq, hmiss]
  · simp [handler0, hq, hmiss]

/-- Witness for the amended C7: empty pincode, valid productId, arbitrary
collaborator results. -/
theorem missingParams_response_witness :
    handler (fun _ _ => 0) "d" ⟨"GET", some (some "", some "gid1")⟩
      (some ⟨1, 2⟩) (.ok none) =
      { statusCode := 400, headers := corsHeaders,
        body := .errorBody "Missing pincode or productId" } ∧
    handler0 (fun _ _ => 0) ⟨"GET", some (some "", some "gid1")⟩
      (.ok ⟨1, 2⟩) (.okFetch none) =
      .ok { statusCode := 400, headers := [],
            body := .errorBody "Missing pincode or productId" } :=
  missingParams_response (fun _ _ => 0) "d"
    ⟨"GET", some (some "", some "gid1")⟩ (by decide)
    (some "", some "gid1") rfl (by decide)
    (some ⟨1, 2⟩) (.ok none) (fun _ _ => 0) (.ok ⟨1, 2⟩) (.okFetch none)

/-- Every `checkPincode.js` response carries one of the five emitted status
codes, for every event and every collaborator outcome. -/
theorem handler_statusCodes (dist : Coordinates → Coordinates → Nat)
    (est : String) (e : Event) (geo : Option Coordinates)
    (shop : Except Unit (Option RawProduct)) :
    (handler dist est e geo shop).statusCode ∈ [200, 204, 400, 404, 500] := by
  by_cases hm : (e.httpMethod == "OPTIONS") = true
  · simp [handler, hm]
  · rw [Bool.not_eq_true] at hm
    by_cases hp : (isFalsy (e.queryStringParameters.getD (none, none)).1 ||
        isFalsy (e.queryStringParameters.getD (none, none)).2) = true
    · simp [handler, hm, hp]
    · rw [Bool.not_eq_true] at hp
      cases geo with
      | none => simp [handler, hm, hp]
      | some uc =>
        cases shop with
        | error u => simp [handler, hm, hp]
        | ok op =>
          cases op with
          | none => simp [handler, hm, hp]
          | some product =>
            obtain ⟨r, hr⟩ := findNearestLocation_warehouse_some dist uc
            cases hsel : selectInventory warehouseLocationMap r.1
                (inventoryLevels product) with
            | Fulfilled n q => simp [handler, hm, hp, hr, hsel]
            | Fallback n q => simp [handler, hm, hp, hr, hsel]
            | OutOfStock => simp [handler, hm, hp, hr, hsel]

/-- When the unnamed variant is given a query-parameter object it answers
with `.ok` (no exception) and one of its four status codes. -/
theorem handler0_statusCodes (dist0 : Coordinates → Coordinates → Nat)
    (e : Event) (qsp : Option String × Option String)
    (geo0 : Except Unit Coordinates) (shop0 : ShopifyFetch)
    (h : e.queryStringParameters = some qsp) :
    ∃ resp, handler0 dist0 e geo0 shop0 = .ok resp ∧
      resp.statusCode ∈ [200, 400, 404, 500] := by
  by_cases hp : (isFalsy qsp.1 || isFalsy qsp.2) = true
  · refine ⟨{ statusCode := 400, headers := [],
              body := .errorBody "Missing pincode or productId" }, ?_, ?_⟩
    · simp [handler0, h, hp]
    · simp
  · rw [Bool.not_eq_true] at hp
    cases geo0 with
    | error u =>
      refine ⟨{ statusCode := 500, headers := [],
                body := .errorBody "Server error" }, ?_, ?_⟩
      · simp [handler0, h, hp]
      · simp
    | ok uc =>
      cases shop0 with
      | threw =>
        refine ⟨{ statusCode := 500, headers := [],
                  body := .errorBody "Server error" }, ?_, ?_⟩
        · simp [handler0, h, hp]
        · simp
      | notOk errs =>
        refine ⟨{ statusCode := 500, headers := [],
                  body := .errorBody
                    (errs.getD "Error fetching product data") }, ?_, ?_⟩
        · simp [handler0, h, hp]
        · simp
      | okFetch op =>
        cases op with
        | none =>
          refine ⟨{ statusCode := 404, headers := [],
                    body := .errorBody "Product not found" }, ?_, ?_⟩
          · simp [handler0, h, hp]
          · simp
        | some product =>
          obtain ⟨r, hr⟩ := findNearestLocation_warehouse_some dist0 uc
          cases hsel : selectInventory warehouseLocationMap r.1
              (inventoryLevels product) with
          | Fulfilled n q =>
            refine ⟨{ statusCode := 200, headers := [],
                      body := .stockBody n q
                        ("Product is available at " ++ n ++ ".") }, ?_, ?_⟩
            · simp [handler0, h, hp, hr, hsel]
            · simp
          | Fallback n q =>
            refine ⟨{ statusCode := 200, headers := [],
                      body := .stockBody n q
                        ("Product is not available near your pincode but is available at " ++
                          n ++ ".") }, ?_, ?_⟩
            · simp [handler0, h, hp, hr, hsel]
            · simp
          | OutOfStock =>
            refine ⟨{ statusCode := 200, headers := [],
                      body := .errorBody
                        "Product is out of stock at all locations." },
              ?_, ?_⟩
            · simp [handler0, h, hp, hr, hsel]
            · simp

/-- C8 counterexample: an event with no query-parameter object makes the
unnamed variant propagate a raw exception (the unguarded destructuring of
`event.queryStringParameters`) instead of any structured response. -/
theorem structured_response_counterexample :
    handler0 (fun _ _ => 0) ⟨"GET", none⟩ (.ok ⟨0, 0⟩) (.okFetch none) =
      .error () :=
  rfl

/-- C8 (amended): the CORS-aware handler returns a structured response with
status in {200, 204, 400, 404, 500} for every event and collaborator
outcome; the unnamed variant does so (statuses {200, 400, 404, 500}) for
every event that carries a query-parameter object — without one its
destructuring throws, per the counterexample. -/
theorem structured_response :
    (∀ (dist : Coordinates → Coordinates → Nat) (est : String) (e : Event)
      (geo : Option Coordinates) (shop : Except Unit (Option RawProduct)),
      (handler dist est e geo shop).statusCode ∈ [200, 204, 400, 404, 500]) ∧
    (∀ (dist0 : Coordinates → Coordinates → Nat) (e : Event)
      (qsp : Option String × Option String)
      (geo0 : Except Unit Coordinates) (shop0 : ShopifyFetch),
      e.queryStringParameters = some qsp →
      ∃ resp, handler0 dist0 e geo0 shop0 = .ok resp ∧
        resp.statusCode ∈ [200, 400, 404, 500]) :=
  ⟨fun dist est e geo shop => handler_statusCodes dist est e geo shop,
    fun dist0 e qsp geo0 shop0 h =>
      handler0_statusCodes dist0 e qsp geo0 shop0 h⟩

/-- Witness for the amended C8 at concrete inputs. -/
theorem structured_response_witness :
    (handler (fun _ _ => 0) "" ⟨"GET", none⟩ none
      (.error ())).statusCode ∈ [200, 204, 400, 404, 500] ∧
    ∃ resp, handler0 (fun _ _ => 0) ⟨"GET", some (some "1", some "2")⟩
        (.ok ⟨0, 0⟩) .threw = .ok resp ∧
      resp.statusCode ∈ [200, 400, 404, 500] :=
  ⟨structured_response.1 (fun _ _ => 0) "" ⟨"GET", none⟩ none (.error ()),
    structured_response.2 (fun _ _ => 0) ⟨"GET", some (some "1", some "2")⟩
      (some "1", some "2") (.ok ⟨0, 0⟩) .threw rfl⟩
